import Mathlib

/-!
Verification of the used-car listing monitor (matcher / storage / main loop).

The Python sources are shallowly embedded:
* dictionaries for listing records become a `Listing` structure whose optional
  fields are `Option` (a `dict.get` default is applied at the field boundary);
* `str.lower` / `str.upper` are modelled character-wise (the texts involved are
  ASCII, where Python and Lean case mapping agree);
* the three `re` patterns of `ListingMatcher.PLAT_PATTERNS` are hand-compiled
  to backtracking matchers over `List Char`, and `re.search` is a left-to-right
  scan that keeps the first position where a pattern matches;
* SQLite tables become lists of row structures inside `StorageState`;
  timestamps stay the TEXT the database actually holds — rows carry SQLite
  `CURRENT_TIMESTAMP` renderings, query parameters carry Python
  `isoformat()` renderings — and are compared byte-wise, as SQLite compares
  them, with the strings the running program would supply passed explicitly;
* `list.sort(key=..., reverse=True)` (Python's stable sort) is modelled by a
  stable insertion sort on the descending-by-score relation.
-/

/-- Character-wise model of Python `str.lower()` (ASCII inputs). -/
def pyLower (s : String) : String := ⟨s.data.map Char.toLower⟩

/-- Character-wise model of Python `str.upper()` (ASCII inputs). -/
def pyUpper (s : String) : String := ⟨s.data.map Char.toUpper⟩

/-- Model of the Python substring test `needle in hay`. -/
def containsSub (needle : List Char) : List Char → Bool
  | [] => needle.isEmpty
  | c :: t => needle.isPrefixOf (c :: t) || containsSub needle t

/-- A normalized listing record as produced by the fetchers and consumed by
`matcher.py`.  Absent dictionary keys are `none`; string keys read with a
default (`title`, `description`, `listing_id`, `source`, `url`) carry that
default directly.  `plat` and `score` are the enrichment keys added by
`ListingMatcher.match`; they are absent (`none`) on raw records. -/
structure Listing where
  listing_id : String := ""
  source : String := "unknown"
  title : String := ""
  description : String := ""
  price : Option Int := none
  year : Option Int := none
  km : Option Int := none
  transmission : Option String := none
  url : String := ""
  plat : Option String := none
  score : Option Int := none
deriving DecidableEq

/-- Configuration fields of `ListingMatcher.__init__` (from `config.py`;
`transmission` and `color` are stored already lower-cased, as in the source). -/
structure ListingMatcher where
  min_year : Int
  max_year : Int
  min_price : Int
  max_price : Int
  max_km : Int
  transmission : String
  color : String
deriving DecidableEq

/-- The matcher built from the `config.py` default values. -/
def defaultMatcher : ListingMatcher :=
  { min_year := 2019
    max_year := 2021
    min_price := 120000000
    max_price := 190000000
    max_km := 60000
    transmission := "manual"
    color := "putih" }

namespace ListingMatcher

/-- Class constant `AVANZA_KEYWORDS` of `matcher.py`. -/
def AVANZA_KEYWORDS : List String :=
  ["avanza", "veloz", "avansa", "avnza"]

/-- Class constant `NON_AVANZA_KEYWORDS` of `matcher.py`. -/
def NON_AVANZA_KEYWORDS : List String :=
  ["innova", "fortuner", "rush", "calya", "sigra", "xenia",
   "terios", "ayla", "agya", "yaris", "vios", "camry", "alphard",
   "xpander", "ertiga", "livina", "mobilio", "brv", "hrv", "crv"]

/-- Embedding of `ListingMatcher.is_avanza`. -/
def is_avanza (_m : ListingMatcher) (title : String) (description : String := "") : Bool :=
  let text := pyLower (title ++ " " ++ description)
  AVANZA_KEYWORDS.any (fun kw => containsSub kw.data text.data) &&
    !(NON_AVANZA_KEYWORDS.any (fun kw => containsSub kw.data text.data))

/-- Embedding of `ListingMatcher.check_year`. -/
def check_year (m : ListingMatcher) : Option Int → Bool
  | none => false
  | some y => decide (m.min_year ≤ y ∧ y ≤ m.max_year)

/-- Embedding of `ListingMatcher.check_price`. -/
def check_price (m : ListingMatcher) : Option Int → Bool
  | none => false
  | some p => decide (m.min_price ≤ p ∧ p ≤ m.max_price)

/-- Embedding of `ListingMatcher.check_km`. -/
def check_km (m : ListingMatcher) : Option Int → Bool
  | none => true
  | some k => decide ((0 : Int) ≤ k ∧ k ≤ m.max_km)

/-- Embedding of `ListingMatcher.check_transmission`. -/
def check_transmission (m : ListingMatcher) : Option String → Bool
  | none => true
  | some t => pyLower t == m.transmission

end ListingMatcher

/-! Hand-compiled model of the four regular expressions in
`ListingMatcher.PLAT_PATTERNS` and of `re.search` over them.  Python's word
characters, whitespace and `[A-Z]` are modelled for the ASCII range. -/

/-- Python regex word character (ASCII fragment of `\w`). -/
def isWordChar (c : Char) : Bool := c.isAlpha || c.isDigit || c == '_'

/-- Word-character test on an optional character; a string edge counts as
non-word, as in the `\b` semantics. -/
def isWordOpt : Option Char → Bool
  | none => false
  | some c => isWordChar c

/-- Python regex whitespace (ASCII fragment of `\s`). -/
def isWs (c : Char) : Bool :=
  c == ' ' || c == '\t' || c == '\n' || c == '\x0d' || c == '\x0c' || c == '\x0b'

/-- Test for the character class `[A-Z]`. -/
def isUpperAZ (c : Char) : Bool := 'A' ≤ c && c ≤ 'Z'

/-- Matcher for the fragment `\s+([A-Z])\b` that follows the literal keywords
in patterns 1 and 2: consumes the (forced, since `[A-Z]` is not whitespace)
full whitespace run and then requires a capital letter at a right word
boundary, returning the captured letter. -/
def keywordTailAux : List Char → Option Char
  | [] => none
  | c :: rest =>
    if isWs c then keywordTailAux rest
    else if isUpperAZ c then
      match rest with
      | [] => some c
      | d :: _ => if isWordChar d then none else some c
    else none

/-- Requires at least one whitespace character before `keywordTailAux`. -/
def keywordTail : List Char → Option Char
  | [] => none
  | c :: rest => if isWs c then keywordTailAux rest else none

/-- Attempt pattern 1, `\bPLAT\s+([A-Z])\b`, at one position (given the
preceding character for the left word boundary). -/
def tryPlatAt (prev : Option Char) (s : List Char) : Option Char :=
  match s with
  | 'P' :: 'L' :: 'A' :: 'T' :: rest =>
    if isWordOpt prev then none else keywordTail rest
  | _ => none

/-- Attempt pattern 2, `\bNOPOL\s+([A-Z])\b`, at one position. -/
def tryNopolAt (prev : Option Char) (s : List Char) : Option Char :=
  match s with
  | 'N' :: 'O' :: 'P' :: 'O' :: 'L' :: rest =>
    if isWordOpt prev then none else keywordTail rest
  | _ => none

/-- Matcher for the fragment `\s*[A-Z]{0,3}\b` at the end of pattern 3, where
the character immediately before `s` is a word character (the last digit).
Backtracking over the two bounded quantifiers is an existential search over
the number `j` of whitespace characters and the number `m` of capital
letters consumed. -/
def tailWsLetters (s : List Char) : Bool :=
  (List.range ((s.takeWhile isWs).length + 1)).any fun j =>
    let t := s.drop j
    (List.range 4).any fun m =>
      decide (m ≤ t.length) && (t.take m).all isUpperAZ &&
        (let prevWord := if m > 0 then true else if j > 0 then false else true
         prevWord != isWordOpt (t.drop m).head?)

/-- Matcher for the fragment `\s+\d{1,4}\s*[A-Z]{0,3}\b` that follows the
captured letter in pattern 3.  The whitespace run of `\s+` is forced to be
maximal because the following `\d` cannot match whitespace; the digit count
`k` is an existential search over 1..4. -/
def stdTail (s : List Char) : Bool :=
  let wsRun := (s.takeWhile isWs).length
  if wsRun == 0 then false
  else
    let s1 := s.drop wsRun
    (List.range 4).any fun i =>
      let k := i + 1
      decide (k ≤ s1.length) && (s1.take k).all (·.isDigit) && tailWsLetters (s1.drop k)

/-- Attempt pattern 3, `\b([A-Z])\s+\d{1,4}\s*[A-Z]{0,3}\b`, at one position. -/
def tryStdAt (prev : Option Char) (s : List Char) : Option Char :=
  match s with
  | [] => none
  | c :: rest =>
    if isUpperAZ c && !isWordOpt prev && stdTail rest then some c else none

/-- Matcher for the fragment `\d{1,4}\b` at the end of pattern 4. -/
def hyphenTail (s : List Char) : Bool :=
  (List.range 4).any fun i =>
    let k := i + 1
    decide (k ≤ s.length) && (s.take k).all (·.isDigit) && !isWordOpt (s.drop k).head?

/-- Attempt pattern 4, `\b([A-Z])-\d{1,4}\b`, at one position. -/
def tryHyphenAt (prev : Option Char) (s : List Char) : Option Char :=
  match s with
  | c :: '-' :: rest =>
    if isUpperAZ c && !isWordOpt prev && hyphenTail rest then some c else none
  | _ => none

/-- Model of `re.search` for a single-letter-capture pattern: scan the
positions of the text left to right, remembering the preceding character for
word-boundary tests, and return the capture of the first position at which
the pattern matches. -/
def reSearch (f : Option Char → List Char → Option Char) :
    Option Char → List Char → Option Char
  | prev, [] => f prev []
  | prev, c :: rest =>
    match f prev (c :: rest) with
    | some g => some g
    | none => reSearch f (some c) rest

namespace ListingMatcher

/-- The upper-cased concatenation `f"{title} {description}".upper()` used by
`detect_plat`, as a character list. -/
def platText (title description : String) : List Char :=
  (pyUpper (title ++ " " ++ description)).data

/-- Embedding of `ListingMatcher.detect_plat`: try the four patterns in their
listed order and return the first search hit, or the sentinel. -/
def detect_plat (_m : ListingMatcher) (title : String) (description : String := "") : String :=
  let text := platText title description
  match reSearch tryPlatAt none text with
  | some c => String.mk [c]
  | none =>
  match reSearch tryNopolAt none text with
  | some c => String.mk [c]
  | none =>
  match reSearch tryStdAt none text with
  | some c => String.mk [c]
  | none =>
  match reSearch tryHyphenAt none text with
  | some c => String.mk [c]
  | none => "unknown"

/-- Embedding of `ListingMatcher.calculate_score`. -/
def calculate_score (_m : ListingMatcher) (listing : Listing) : Int :=
  let score : Int := 50
  let score := if listing.plat.getD "unknown" == "F" then score + 30 else score
  let score :=
    match listing.km with
    | none => score
    | some km =>
      if km < 20000 then score + 15
      else if km < 40000 then score + 10
      else if km < 60000 then score + 5
      else score
  let score :=
    match listing.year with
    | none => score
    | some y => if y == 2021 then score + 10 else if y == 2020 then score + 5 else score
  let score :=
    match listing.price with
    | none => score
    | some p =>
      if p > 180000000 then score - 5
      else if p < 140000000 then score + 5
      else score
  min 100 (max 0 score)

/-- The enrichment performed on a matching listing: `plat` is detected first
and `score` is then computed on the plat-enriched copy, as in the source. -/
def enrich (m : ListingMatcher) (l : Listing) : Listing :=
  let e := { l with plat := some (m.detect_plat l.title l.description) }
  { e with score := some (m.calculate_score e) }

/-- Embedding of `ListingMatcher.match` (named `matchListing` because `match`
is a Lean keyword): the five checks run in the source order with an early
return on the first failure, returning the listing unmodified; on success the
enriched copy is returned. -/
def matchListing (m : ListingMatcher) (l : Listing) : Bool × Listing :=
  if m.is_avanza l.title l.description = false then (false, l)
  else if m.check_year l.year = false then (false, l)
  else if m.check_price l.price = false then (false, l)
  else if m.check_km l.km = false then (false, l)
  else if m.check_transmission l.transmission = false then (false, l)
  else (true, m.enrich l)

end ListingMatcher

/-- Sort key used by `filter_listings`: `x.get('score', 0)`. -/
def scoreKey (l : Listing) : Int := l.score.getD 0

/-- Descending-by-score order: `descRel a b` says `a` may precede `b`. -/
def descRel (a b : Listing) : Prop := scoreKey b ≤ scoreKey a

instance : DecidableRel descRel := fun a b =>
  inferInstanceAs (Decidable (scoreKey b ≤ scoreKey a))

instance : IsTotal Listing descRel :=
  ⟨fun a b => (le_total (scoreKey b) (scoreKey a)).imp id id⟩

instance : IsTrans Listing descRel :=
  ⟨fun _ _ _ h1 h2 => le_trans h2 h1⟩

/-- Model of `matched.sort(key=lambda x: x.get('score', 0), reverse=True)`:
Python's sort is stable, and a stable descending sort coincides with
insertion sort for `descRel` (ties keep input order because an element is
inserted in front of the later, equal-keyed ones). -/
def sortByScoreDesc (l : List Listing) : List Listing :=
  List.insertionSort descRel l

namespace ListingMatcher

/-- Embedding of `ListingMatcher.filter_listings`: collect the enriched
matches in input order, then sort by score descending. -/
def filter_listings (m : ListingMatcher) (listings : List Listing) : List Listing :=
  sortByScoreDesc
    (listings.filterMap fun l =>
      let r := m.matchListing l
      if r.1 then some r.2 else none)

/-- The conjunction of the five pipeline checks, in the order in which
`ListingMatcher.match` evaluates them (Bool `&&` short-circuits). -/
def passesAll (m : ListingMatcher) (l : Listing) : Bool :=
  m.is_avanza l.title l.description &&
  m.check_year l.year &&
  m.check_price l.price &&
  m.check_km l.km &&
  m.check_transmission l.transmission

end ListingMatcher

/-! Embedding of `storage.py`.  The three SQLite tables are lists of rows in
insertion order.  Timestamps are TEXT, exactly as the database holds them:
rows written through the column defaults carry SQLite's `CURRENT_TIMESTAMP`
rendering `YYYY-MM-DD HH:MM:SS` (UTC, space separator), while every query
parameter carries a Python `datetime.isoformat()` rendering
`YYYY-MM-DDTHH:MM:SS.ffffff` (local time, `T` separator).  The `TIMESTAMP`
columns have NUMERIC affinity and neither rendering converts to a number, so
SQLite compares the two texts byte-wise under the BINARY collation, embedded
below as `sqliteTextLt` on the character lists.
Each operation takes the timestamp strings the running program would supply
at that moment as explicit arguments. -/

/-- SQLite's BINARY-collation text comparison (`memcmp` on the UTF-8 bytes),
written over the character lists; on the ASCII timestamp strings involved,
code-point order and byte order coincide. -/
def sqliteTextLt (a b : List Char) : Bool :=
  match a, b with
  | [], [] => false
  | [], _ :: _ => true
  | _ :: _, [] => false
  | c :: a, d :: b => if c < d then true else if d < c then false else sqliteTextLt a b

/-- A row of the `seen_listings` table (`UNIQUE(listing_id, source)`). -/
structure SeenRow where
  listing_id : String
  source : String
  url : String
  title : Option String
  price : Option Int
  first_seen : String
deriving DecidableEq

/-- A row of the `notification_log` table; the `success` INTEGER column holds
1 or 0 and is modelled as `Bool`. -/
structure NotifRow where
  sent_at : String
  listing_id : String
  success : Bool
deriving DecidableEq

/-- A row of the `error_log` table. -/
structure ErrorRow where
  error_type : String
  error_message : String
  notified_at : String
deriving DecidableEq

/-- The persistent state managed by `Storage`. -/
structure StorageState where
  seen_listings : List SeenRow := []
  notification_log : List NotifRow := []
  error_log : List ErrorRow := []
deriving DecidableEq

/-- Configuration constants of `config.py` used by the storage layer. -/
structure Config where
  MAX_NOTIFICATIONS_PER_HOUR : Nat
deriving DecidableEq

/-- The `config.py` default (`MAX_NOTIFICATIONS_PER_HOUR = 10`). -/
def defaultConfig : Config := { MAX_NOTIFICATIONS_PER_HOUR := 10 }

namespace Storage

/-- Row predicate for the `(listing_id, source)` identity key. -/
def keyMatch (listing_id source : String) (r : SeenRow) : Bool :=
  r.listing_id == listing_id && r.source == source

/-- Embedding of `Storage.is_listing_seen`: `SELECT 1 FROM seen_listings
WHERE listing_id = ? AND source = ?` is nonempty. -/
def is_listing_seen (st : StorageState) (listing_id source : String) : Bool :=
  st.seen_listings.any (keyMatch listing_id source)

/-- Embedding of `Storage.mark_listing_seen`: `INSERT OR IGNORE` under the
`UNIQUE(listing_id, source)` constraint appends a fresh row exactly when no
row with that key exists; `first_seen` is filled by the column default
`CURRENT_TIMESTAMP`, supplied here as `cur_ts`. -/
def mark_listing_seen (st : StorageState) (cur_ts : String) (listing_id source url : String)
    (title : Option String := none) (price : Option Int := none) : StorageState :=
  if st.seen_listings.any (keyMatch listing_id source) then st
  else { st with seen_listings :=
          st.seen_listings ++ [⟨listing_id, source, url, title, price, cur_ts⟩] }

/-- Embedding of `Storage.get_notification_count_last_hour`: counts the rows
with `sent_at > ?` and `success = 1`, the bound parameter being
`(datetime.now() - timedelta(hours=1)).isoformat()` — supplied here as the
string `one_hour_ago` — and the comparison being the byte-wise TEXT
comparison SQLite performs between it and the stored `sent_at` text. -/
def get_notification_count_last_hour (st : StorageState) (one_hour_ago : String) : Nat :=
  st.notification_log.countP fun r => sqliteTextLt one_hour_ago.data r.sent_at.data && r.success

/-- Embedding of `Storage.can_send_notification`. -/
def can_send_notification (cfg : Config) (st : StorageState) (one_hour_ago : String) : Bool :=
  get_notification_count_last_hour st one_hour_ago < cfg.MAX_NOTIFICATIONS_PER_HOUR

/-- Embedding of `Storage.log_notification`: append-only insert; `sent_at`
is filled by the column default `CURRENT_TIMESTAMP`, supplied as `cur_ts`. -/
def log_notification (st : StorageState) (cur_ts : String) (listing_id : String)
    (success : Bool) : StorageState :=
  { st with notification_log := st.notification_log ++ [⟨cur_ts, listing_id, success⟩] }

/-- Embedding of `Storage.cleanup_old_data`: the source computes
`cutoff = (datetime.now() - timedelta(days=days)).isoformat()` and binds it
into `DELETE ... WHERE sent_at < ?` and `DELETE ... WHERE notified_at < ?`
(byte-wise TEXT comparisons against the stored texts), returning the summed
`rowcount` of the two statements.  The bound `cutoff` string is the explicit
argument. -/
def cleanup_old_data (st : StorageState) (cutoff : String) : StorageState × Nat :=
  let keptNotifs := st.notification_log.filter fun r => !sqliteTextLt r.sent_at.data cutoff.data
  let keptErrors := st.error_log.filter fun r => !sqliteTextLt r.notified_at.data cutoff.data
  let deleted_notifs :=
    (st.notification_log.filter fun r => sqliteTextLt r.sent_at.data cutoff.data).length
  let deleted_errors :=
    (st.error_log.filter fun r => sqliteTextLt r.notified_at.data cutoff.data).length
  ({ st with notification_log := keptNotifs, error_log := keptErrors },
   deleted_notifs + deleted_errors)

end Storage

/-- Embedding of `TelegramNotifier.notify_listing` as it acts on the store:
an early `return False` when the rate limit is hit (without logging), else
the Notification Sink is invoked — its success outcome is supplied by the
`send` oracle — and the attempt is logged with that success flag.  Message
formatting and the photo/text branch do not touch the store and are elided. -/
def notify_listing (cfg : Config) (send : Listing → Bool) (cur_ts one_hour_ago : String)
    (l : Listing) (st : StorageState) : Bool × StorageState :=
  if Storage.can_send_notification cfg st one_hour_ago = false then (false, st)
  else
    let success := send l
    (success, Storage.log_notification st cur_ts l.listing_id success)

/-- The per-listing loop of `MobilMonitorBot.process_listings` over the
already-matched list: skip seen listings, break out when the rate limit is
reached, otherwise notify, mark seen whatever the notify outcome, and count
the successful sends. -/
def processLoop (cfg : Config) (send : Listing → Bool) (cur_ts one_hour_ago : String) :
    List Listing → StorageState → StorageState × Nat
  | [], st => (st, 0)
  | l :: rest, st =>
    if Storage.is_listing_seen st l.listing_id l.source then
      processLoop cfg send cur_ts one_hour_ago rest st
    else if Storage.can_send_notification cfg st one_hour_ago = false then (st, 0)
    else
      let r := notify_listing cfg send cur_ts one_hour_ago l st
      let st2 := Storage.mark_listing_seen r.2 cur_ts l.listing_id l.source l.url
        (some l.title) l.price
      let rec2 := processLoop cfg send cur_ts one_hour_ago rest st2
      (rec2.1, (if r.1 then 1 else 0) + rec2.2)

/-- Embedding of `MobilMonitorBot.process_listings`: filter with the matcher,
then run the notification loop. -/
def process_listings (cfg : Config) (m : ListingMatcher) (send : Listing → Bool)
    (cur_ts one_hour_ago : String) (listings : List Listing) (st : StorageState) :
    StorageState × Nat :=
  processLoop cfg send cur_ts one_hour_ago (m.filter_listings listings) st

/-! Theorems about the embedded program. -/

/-- Claim C8: `check_year` of a present year is exactly the inclusive range
test and an absent year fails; `check_km` of an absent km passes and a
present km is exactly the `0 ≤ km ≤ max_km` test. -/
theorem C8_year_km_checks (m : ListingMatcher) :
    (∀ y : Int, m.check_year (some y) = true ↔ m.min_year ≤ y ∧ y ≤ m.max_year) ∧
    m.check_year none = false ∧
    m.check_km none = true ∧
    (∀ k : Int, m.check_km (some k) = true ↔ (0 : Int) ≤ k ∧ k ≤ m.max_km) := by
  refine ⟨fun y => ?_, rfl, rfl, fun k => ?_⟩ <;>
    simp [ListingMatcher.check_year, ListingMatcher.check_km]

/-- A store holding one notification-log row and one error-log row, both
stamped by SQLite's `CURRENT_TIMESTAMP` at 20:00:00 UTC on the cutoff day. -/
def cutoffDayState : StorageState :=
  { notification_log := [⟨"2026-09-12 20:00:00", "y", true⟩]
    error_log := [⟨"fetch_error", "boom", "2026-09-12 20:00:00"⟩] }

/-- Claim C9 states the intent, but the code violates it (storage.py, the
`DELETE` statements of `cleanup_old_data`): rows stamped 20:00:00 UTC on the
cutoff day are strictly newer than the 08:00 cutoff — under one consistent
rendering the cutoff precedes them (first conjunct) — yet the byte
comparison of the stored `CURRENT_TIMESTAMP` text with the bound
`isoformat()` cutoff puts the space separator (0x20) below the `T` (0x54)
at the date boundary, classifying the rows as older (second conjunct), so
`cleanup_old_data` deletes both and reports two deletions instead of
deleting exactly the strictly older rows.  The `seen_listings` frame part
of the claim does hold (last conjunct). -/
theorem C9_cleanup_cutoff_bug :
    sqliteTextLt "2026-09-12T08:00:00.123456".data "2026-09-12T20:00:00".data = true ∧
    sqliteTextLt "2026-09-12 20:00:00".data "2026-09-12T08:00:00.123456".data = true ∧
    (Storage.cleanup_old_data cutoffDayState "2026-09-12T08:00:00.123456").1.notification_log
      = [] ∧
    (Storage.cleanup_old_data cutoffDayState "2026-09-12T08:00:00.123456").1.error_log = [] ∧
    (Storage.cleanup_old_data cutoffDayState "2026-09-12T08:00:00.123456").2 = 2 ∧
    (Storage.cleanup_old_data cutoffDayState "2026-09-12T08:00:00.123456").1.seen_listings =
      cutoffDayState.seen_listings := by
  refine ⟨rfl, rfl, rfl, rfl, rfl, rfl⟩

/-- Claim C10: once `can_send_notification` is false, the processing loop
stops before any further notification attempt — no remaining listing is
notified, marked seen or logged, the store state is returned unchanged and
no further success is counted; in particular the whole of
`process_listings` is a no-op on the store in that situation. -/
theorem C10_rate_limit_break (cfg : Config) (m : ListingMatcher) (send : Listing → Bool)
    (cur_ts one_hour_ago : String) (listings matched : List Listing) (st : StorageState)
    (h : Storage.can_send_notification cfg st one_hour_ago = false) :
    processLoop cfg send cur_ts one_hour_ago matched st = (st, 0) ∧
    process_listings cfg m send cur_ts one_hour_ago listings st = (st, 0) := by
  have loop : ∀ rest : List Listing,
      processLoop cfg send cur_ts one_hour_ago rest st = (st, 0) := by
    intro rest
    induction rest with
    | nil => rfl
    | cons l tl ih =>
      rw [processLoop]
      by_cases hs : Storage.is_listing_seen st l.listing_id l.source = true
      · simpa [hs] using ih
      · simp [hs, h]
  exact ⟨loop matched, loop (m.filter_listings listings)⟩

/-- Number of `seen_listings` rows carrying a given `(listing_id, source)`
identity key. -/
def countKey (st : StorageState) (listing_id source : String) : Nat :=
  st.seen_listings.countP (Storage.keyMatch listing_id source)

/-- Claim C3: `mark_listing_seen` is idempotent.  Starting from any state
respecting the `UNIQUE(listing_id, source)` constraint, a second call with
the same key (any url/title/price/time) is a literal no-op, exactly one row
with the key remains, and `is_listing_seen` answers true after the first
call. -/
theorem C3_markSeen_idempotent (st : StorageState) (t1 t2 : String)
    (listing_id source url url' : String) (title title' : Option String)
    (price price' : Option Int) (h : countKey st listing_id source ≤ 1) :
    Storage.mark_listing_seen (Storage.mark_listing_seen st t1 listing_id source url title price)
        t2 listing_id source url' title' price' =
      Storage.mark_listing_seen st t1 listing_id source url title price ∧
    countKey (Storage.mark_listing_seen st t1 listing_id source url title price)
        listing_id source = 1 ∧
    Storage.is_listing_seen (Storage.mark_listing_seen st t1 listing_id source url title price)
        listing_id source = true := by
  by_cases hs : st.seen_listings.any (Storage.keyMatch listing_id source) = true
  · have h1 : Storage.mark_listing_seen st t1 listing_id source url title price = st := by
      simp [Storage.mark_listing_seen, hs]
    have hge : 1 ≤ countKey st listing_id source := by
      obtain ⟨r, hr, hkr⟩ := List.any_eq_true.mp hs
      exact List.countP_pos_iff.mpr ⟨r, hr, hkr⟩
    refine ⟨?_, ?_, ?_⟩
    · rw [h1]; simp [Storage.mark_listing_seen, hs]
    · rw [h1]; omega
    · rw [h1]; exact hs
  · have hz : countKey st listing_id source = 0 := by
      rw [countKey, List.countP_eq_zero]
      intro r hr
      exact fun hkr => hs (List.any_eq_true.mpr ⟨r, hr, hkr⟩)
    have h1 : Storage.mark_listing_seen st t1 listing_id source url title price =
        { st with seen_listings :=
            st.seen_listings ++ [⟨listing_id, source, url, title, price, t1⟩] } := by
      simp [Storage.mark_listing_seen, hs]
    have hkey : Storage.keyMatch listing_id source
        ⟨listing_id, source, url, title, price, t1⟩ = true := by
      simp [Storage.keyMatch]
    have hany2 : (st.seen_listings ++
        [(⟨listing_id, source, url, title, price, t1⟩ : SeenRow)]).any
        (Storage.keyMatch listing_id source) = true := by
      simp [List.any_append, hkey]
    refine ⟨?_, ?_, ?_⟩
    · rw [h1]
      simp only [Storage.mark_listing_seen]
      rw [if_pos hany2]
    · rw [h1]
      show (st.seen_listings ++ [_]).countP _ = 1
      rw [List.countP_append]
      have hz' : st.seen_listings.countP (Storage.keyMatch listing_id source) = 0 := hz
      rw [hz']
      simp [hkey]
    · rw [h1]
      exact hany2

/-- Witness for C3 at a concrete input: the empty store. -/
theorem C3_markSeen_idempotent_witness :
    countKey {} "id1" "olx" ≤ 1 ∧
    Storage.mark_listing_seen
        (Storage.mark_listing_seen {} "2026-10-12 08:00:00" "id1" "olx" "u" none none)
        "2026-10-12 08:05:00" "id1" "olx" "v" none none =
      Storage.mark_listing_seen {} "2026-10-12 08:00:00" "id1" "olx" "u" none none ∧
    countKey (Storage.mark_listing_seen {} "2026-10-12 08:00:00" "id1" "olx" "u" none none)
        "id1" "olx" = 1 :=
  ⟨by decide,
   (C3_markSeen_idempotent {} "2026-10-12 08:00:00" "2026-10-12 08:05:00" "id1" "olx"
      "u" "v" none none none none (by decide)).1,
   (C3_markSeen_idempotent {} "2026-10-12 08:00:00" "2026-10-12 08:05:00" "id1" "olx"
      "u" "v" none none none none (by decide)).2.1⟩

/-- A store whose notification log already holds the full default quota of
ten successful sends, with stored dates above the query cutoff's date so
that the byte-wise window test counts them (the one situation in which the
program's gate actually closes). -/
def fullLogState : StorageState :=
  { notification_log := List.replicate 10 ⟨"2026-10-13 05:00:00", "x", true⟩ }

/-- Witness for C10 at a concrete input: with the gate returning false, the
loop over one fresh listing leaves the store untouched. -/
theorem C10_rate_limit_break_witness :
    Storage.can_send_notification defaultConfig fullLogState "2026-10-12T10:00:00" = false ∧
    processLoop defaultConfig (fun _ => true) "2026-10-13 05:10:00" "2026-10-12T10:00:00"
      [{ listing_id := "n1", source := "olx" }] fullLogState = (fullLogState, 0) :=
  ⟨by decide,
   (C10_rate_limit_break defaultConfig defaultMatcher (fun _ => true) "2026-10-13 05:10:00"
      "2026-10-12T10:00:00" [] [{ listing_id := "n1", source := "olx" }] fullLogState
      (by decide)).1⟩

/-- A notification log holding the full default quota of ten successful
sends, all stamped by SQLite's `CURRENT_TIMESTAMP` at 10:30:00 UTC. -/
def sameDayFullLog : StorageState :=
  { notification_log := List.replicate 10 ⟨"2026-10-12 10:30:00", "x", true⟩ }

/-- Claim C4 states the intent, but the code violates it (storage.py, the
window query of `get_notification_count_last_hour`): ten successful sends
stamped 10:30:00 lie strictly inside the trailing hour of an 11:00 query —
under one consistent rendering the 10:00 cutoff precedes them (first
conjunct) — yet the byte comparison of the stored `CURRENT_TIMESTAMP` text
(space separator, 0x20) with the bound `isoformat()` cutoff (`T`
separator, 0x54) puts every same-day row below the cutoff (second
conjunct), so the code counts zero of the quota-filling successful rows
and `can_send_notification` stays true where the claim requires false. -/
theorem C4_rate_limit_window_bug :
    sqliteTextLt "2026-10-12T10:00:00".data "2026-10-12T10:30:00".data = true ∧
    sqliteTextLt "2026-10-12T10:00:00".data "2026-10-12 10:30:00".data = false ∧
    (∀ r ∈ sameDayFullLog.notification_log,
      r.success = true ∧ r.sent_at = "2026-10-12 10:30:00") ∧
    sameDayFullLog.notification_log.length = defaultConfig.MAX_NOTIFICATIONS_PER_HOUR ∧
    Storage.get_notification_count_last_hour sameDayFullLog "2026-10-12T10:00:00" = 0 ∧
    Storage.can_send_notification defaultConfig sameDayFullLog "2026-10-12T10:00:00" = true := by
  refine ⟨rfl, rfl, by decide, rfl, rfl, rfl⟩

/-- Claim C5: when the loop reaches a matched, previously unseen listing with
the rate limit open, the notification attempt happens and — whatever the
send outcome — the attempt is appended to the notification log with its
success flag, the listing is marked seen, and the loop continues with the
remaining listings from the updated store. -/
theorem C5_notify_marks_and_logs (cfg : Config) (send : Listing → Bool) (cur_ts one_hour_ago : String)
    (l : Listing) (rest : List Listing) (st : StorageState)
    (hunseen : Storage.is_listing_seen st l.listing_id l.source = false)
    (hcan : Storage.can_send_notification cfg st one_hour_ago = true) :
    processLoop cfg send cur_ts one_hour_ago (l :: rest) st =
      ((processLoop cfg send cur_ts one_hour_ago rest
          (Storage.mark_listing_seen
            (Storage.log_notification st cur_ts l.listing_id (send l))
            cur_ts l.listing_id l.source l.url (some l.title) l.price)).1,
       (if send l then 1 else 0) +
         (processLoop cfg send cur_ts one_hour_ago rest
           (Storage.mark_listing_seen
             (Storage.log_notification st cur_ts l.listing_id (send l))
             cur_ts l.listing_id l.source l.url (some l.title) l.price)).2) ∧
    Storage.is_listing_seen
        (Storage.mark_listing_seen
          (Storage.log_notification st cur_ts l.listing_id (send l))
          cur_ts l.listing_id l.source l.url (some l.title) l.price)
        l.listing_id l.source = true ∧
    (Storage.mark_listing_seen
        (Storage.log_notification st cur_ts l.listing_id (send l))
        cur_ts l.listing_id l.source l.url (some l.title) l.price).notification_log =
      st.notification_log ++ [⟨cur_ts, l.listing_id, send l⟩] := by
  have hnotseen : (Storage.log_notification st cur_ts l.listing_id (send l)).seen_listings.any
      (Storage.keyMatch l.listing_id l.source) = false := hunseen
  have hseen2 : (Storage.mark_listing_seen
      (Storage.log_notification st cur_ts l.listing_id (send l))
      cur_ts l.listing_id l.source l.url (some l.title) l.price).seen_listings =
      st.seen_listings ++ [⟨l.listing_id, l.source, l.url, some l.title, l.price, cur_ts⟩] := by
    simp only [Storage.mark_listing_seen]
    rw [if_neg (by simp [hnotseen])]
    rfl
  have hlog2 : (Storage.mark_listing_seen
      (Storage.log_notification st cur_ts l.listing_id (send l))
      cur_ts l.listing_id l.source l.url (some l.title) l.price).notification_log =
      st.notification_log ++ [⟨cur_ts, l.listing_id, send l⟩] := by
    simp only [Storage.mark_listing_seen]
    rw [if_neg (by simp [hnotseen])]
    rfl
  refine ⟨?_, ?_, ?_⟩
  · rw [processLoop]
    rw [hunseen, hcan]
    simp only [notify_listing, hcan]
    simp
  · unfold Storage.is_listing_seen
    rw [hseen2]
    simp [List.any_append, Storage.keyMatch]
  · exact hlog2

/-- Witness for C5 at a concrete input: an empty store, a failing send. -/
theorem C5_notify_marks_and_logs_witness :
    Storage.is_listing_seen {} "w1" "olx" = false ∧
    (Storage.mark_listing_seen
        (Storage.log_notification {} "2026-10-12 11:00:00" "w1" false)
        "2026-10-12 11:00:00" "w1" "olx" "" (some "") none).notification_log =
      [⟨"2026-10-12 11:00:00", "w1", false⟩] :=
  ⟨by decide,
   (C5_notify_marks_and_logs defaultConfig (fun _ => false) "2026-10-12 11:00:00"
      "2026-10-12T10:00:00" { listing_id := "w1", source := "olx" } [] {}
      (by decide) (by decide)).2.2⟩

/-- The Boolean substring scan agrees with the infix relation. -/
theorem containsSub_iff (n : List Char) :
    ∀ h : List Char, containsSub n h = true ↔ n <:+: h
  | [] => by
    simp [containsSub, List.isEmpty_iff]
  | c :: t => by
    rw [containsSub]
    simp only [Bool.or_eq_true, containsSub_iff n t, List.isPrefixOf_iff_prefix ]
    exact (List.infix_cons_iff).symm

/-- The lower-cased concatenation scanned by `is_avanza`. -/
def modelText (title description : String) : List Char :=
  (pyLower (title ++ " " ++ description)).data

/-- Claim C6: `is_avanza` answers true exactly when some include keyword is a
substring of the lower-cased `title + " " + description` and no exclude
keyword is, and it is monotonically falsified by excludes: any text with an
exclude-keyword occurrence is rejected no matter which include keywords it
contains. -/
theorem C6_isTargetModel (m : ListingMatcher) (title description : String) :
    (m.is_avanza title description = true ↔
      ((∃ kw ∈ ListingMatcher.AVANZA_KEYWORDS, kw.data <:+: modelText title description) ∧
       ∀ kw ∈ ListingMatcher.NON_AVANZA_KEYWORDS, ¬ kw.data <:+: modelText title description)) ∧
    (∀ kw ∈ ListingMatcher.NON_AVANZA_KEYWORDS,
      kw.data <:+: modelText title description →
      m.is_avanza title description = false) := by
  have hiff : m.is_avanza title description = true ↔
      ((∃ kw ∈ ListingMatcher.AVANZA_KEYWORDS, kw.data <:+: modelText title description) ∧
       ∀ kw ∈ ListingMatcher.NON_AVANZA_KEYWORDS, ¬ kw.data <:+: modelText title description) := by
    simp only [ListingMatcher.is_avanza, modelText, Bool.and_eq_true, Bool.not_eq_true',
      List.any_eq_true, List.any_eq_false]
    constructor
    · rintro ⟨⟨kw, hkw, hin⟩, hex⟩
      refine ⟨⟨kw, hkw, (containsSub_iff kw.data _).mp hin⟩, fun kw2 h2 hinf => ?_⟩
      exact hex kw2 h2 ((containsSub_iff kw2.data _).mpr hinf)
    · rintro ⟨⟨kw, hkw, hin⟩, hex⟩
      refine ⟨⟨kw, hkw, (containsSub_iff kw.data _).mpr hin⟩, fun kw2 h2 hcs => ?_⟩
      exact hex kw2 h2 ((containsSub_iff kw2.data _).mp hcs)
  refine ⟨hiff, fun kw hkw hinf => ?_⟩
  cases hav : m.is_avanza title description with
  | false => rfl
  | true => exact absurd hinf ((hiff.mp hav).2 kw hkw)

/-- Witness for C6 at a concrete input: a title naming both an include and an
exclude keyword is rejected. -/
theorem C6_isTargetModel_witness :
    defaultMatcher.is_avanza "Toyota Avanza dan Innova 2020" "" = false :=
  (C6_isTargetModel defaultMatcher "Toyota Avanza dan Innova 2020" "").2
    "innova" (by decide)
    ((containsSub_iff "innova".data (modelText "Toyota Avanza dan Innova 2020" "")).mp
      (by decide))

/-- Claim C7: `detect_plat` tries the patterns in their fixed priority order
over the upper-cased concatenation — whenever the explicit `PLAT <letter>`
pattern matches with capture `x`, that letter is returned even if the broad
standard-format pattern matches a different letter `y`; and when no pattern
matches anywhere, the sentinel is returned. -/
theorem C7_plate_priority (m : ListingMatcher) (title description : String) :
    (∀ x y : Char,
      reSearch tryPlatAt none (ListingMatcher.platText title description) = some x →
      reSearch tryStdAt none (ListingMatcher.platText title description) = some y →
      x ≠ y →
      m.detect_plat title description = String.mk [x]) ∧
    (reSearch tryPlatAt none (ListingMatcher.platText title description) = none →
     reSearch tryNopolAt none (ListingMatcher.platText title description) = none →
     reSearch tryStdAt none (ListingMatcher.platText title description) = none →
     reSearch tryHyphenAt none (ListingMatcher.platText title description) = none →
     m.detect_plat title description = "unknown") := by
  constructor
  · intro x y h1 _ _
    rw [ListingMatcher.detect_plat, h1]
  · intro h1 h2 h3 h4
    rw [ListingMatcher.detect_plat, h1, h2, h3, h4]

/-- Witness for C7 at concrete inputs: a text carrying both `PLAT F` and the
standard-format sequence `B 1234` yields `F`, and a plain title yields the
sentinel. -/
theorem C7_plate_priority_witness :
    defaultMatcher.detect_plat "PLAT F" "B 1234" = "F" ∧
    defaultMatcher.detect_plat "Toyota Avanza 2020 Putih" "" = "unknown" :=
  ⟨(C7_plate_priority defaultMatcher "PLAT F" "B 1234").1 'F' 'B'
      (by decide) (by decide) (by decide),
   (C7_plate_priority defaultMatcher "Toyota Avanza 2020 Putih" "").2
      (by decide) (by decide) (by decide) (by decide)⟩

/-- The concrete record of the C2 scenario (the reference test fixture). -/
def c2Record : Listing :=
  { title := "Toyota Avanza Veloz 1.5 MT 2020 Putih"
    description := "plat F Bogor"
    price := some 160000000
    year := some 2020
    km := some 35000
    transmission := some "manual" }

/-- Counterexample to claim C2 as stated: on the scenario record the pipeline
produces score 95, not 90 — `calculate_score` does apply a year adjustment
(+5 for year 2020, the `max_year - 1` bonus of the scoring table). -/
theorem C2_scenario_counterexample :
    (defaultMatcher.filter_listings [c2Record]).map (fun e => e.score) = [some 95] ∧
    ¬ (defaultMatcher.filter_listings [c2Record]).map (fun e => e.score) = [some 90] := by
  constructor
  · rfl
  · decide

/-- Claim C2 as amended: the scenario record is returned enriched with plate
region "F" and score 50 (base) + 30 (plate F) + 10 (km band 20000-40000)
+ 5 (year 2020 = max_year - 1) = 95, with no price adjustment; in particular
the claimed bound score ≥ 80 holds. -/
theorem C2_scenario_score :
    defaultMatcher.filter_listings [c2Record] =
      [{ c2Record with plat := some "F", score := some (50 + 30 + 10 + 5) }] ∧
    (80 : Int) ≤ 50 + 30 + 10 + 5 := by
  constructor
  · rfl
  · decide

/-- The early-return chain of `ListingMatcher.match` computes the short-circuit
conjunction of the five checks and enriches exactly the passing listings. -/
theorem matchListing_eq (m : ListingMatcher) (l : Listing) :
    m.matchListing l = if m.passesAll l then (true, m.enrich l) else (false, l) := by
  rw [ListingMatcher.matchListing, ListingMatcher.passesAll]
  cases h1 : m.is_avanza l.title l.description <;>
  cases h2 : m.check_year l.year <;>
  cases h3 : m.check_price l.price <;>
  cases h4 : m.check_km l.km <;>
  cases h5 : m.check_transmission l.transmission <;>
  simp

/-- The collection loop of `filter_listings` keeps the enriched copies of
exactly the listings passing all five checks, in input order. -/
theorem filterMap_matchListing (m : ListingMatcher) (ls : List Listing) :
    (ls.filterMap fun l =>
      let r := m.matchListing l
      if r.1 then some r.2 else none) =
    (ls.filter m.passesAll).map m.enrich := by
  induction ls with
  | nil => rfl
  | cons l tl ih =>
    rw [List.filterMap_cons, List.filter_cons]
    simp only [matchListing_eq] at ih ⊢
    by_cases hp : m.passesAll l = true
    · simp [hp, ih]
    · simp [hp, ih]

/-- Stability of the descending insertion at a single score value: inserting
the (input-earlier) element in front of later equal-scored elements keeps
the subsequence at any fixed score equal to that of the unsorted cons. -/
theorem orderedInsert_filter_scoreEq (x : Listing) (s : Int) :
    ∀ ys : List Listing,
      (List.orderedInsert descRel x ys).filter (fun e => scoreKey e == s) =
        (x :: ys).filter (fun e => scoreKey e == s)
  | [] => rfl
  | y :: ys => by
    rw [List.orderedInsert]
    by_cases h : descRel x y
    · rw [if_pos h]
    · rw [if_neg h]
      have hlt : scoreKey x < scoreKey y := not_le.mp (by simpa [descRel] using h)
      by_cases hx : scoreKey x == s <;> by_cases hy : scoreKey y == s
      · exfalso
        rw [beq_iff_eq] at hx hy
        omega
      · simp only [List.filter_cons, hx, hy, if_true, if_false,
          orderedInsert_filter_scoreEq x s ys]
        simp [hx, hy]
      · simp only [List.filter_cons, hx, hy,
          orderedInsert_filter_scoreEq x s ys]
        simp [hx, hy]
      · simp only [List.filter_cons, hx, hy,
          orderedInsert_filter_scoreEq x s ys]
        simp [hx, hy]

/-- Stability of the modelled sort: for every score value the subsequence of
elements carrying it is untouched. -/
theorem sortByScoreDesc_filter_scoreEq (xs : List Listing) (s : Int) :
    (sortByScoreDesc xs).filter (fun e => scoreKey e == s) =
      xs.filter (fun e => scoreKey e == s) := by
  induction xs with
  | nil => rfl
  | cons x tl ih =>
    simp only [sortByScoreDesc, List.insertionSort] at *
    rw [orderedInsert_filter_scoreEq, List.filter_cons, List.filter_cons, ih]

/-- Claim C1: `filter_listings` returns exactly the records passing the five
checks (evaluated in the fixed source order with short-circuiting; rejected
records are returned unenriched by `match`), each enriched, and the result
is the stable descending-by-score ordering of the matches: it is a
permutation of the enriched matches, pairwise sorted descending, and every
fixed-score subsequence keeps its input relative order. -/
theorem C1_filter_pipeline (m : ListingMatcher) (ls : List Listing) :
    m.filter_listings ls = sortByScoreDesc ((ls.filter m.passesAll).map m.enrich) ∧
    List.Perm (m.filter_listings ls) ((ls.filter m.passesAll).map m.enrich) ∧
    (∀ e : Listing, e ∈ m.filter_listings ls ↔ e ∈ (ls.filter m.passesAll).map m.enrich) ∧
    (m.filter_listings ls).Pairwise descRel ∧
    (∀ s : Int, (m.filter_listings ls).filter (fun e => scoreKey e == s) =
      ((ls.filter m.passesAll).map m.enrich).filter (fun e => scoreKey e == s)) ∧
    (∀ l : Listing, m.passesAll l = false → m.matchListing l = (false, l)) := by
  have hbase : m.filter_listings ls =
      sortByScoreDesc ((ls.filter m.passesAll).map m.enrich) := by
    rw [ListingMatcher.filter_listings, filterMap_matchListing]
  have hperm : List.Perm (m.filter_listings ls) ((ls.filter m.passesAll).map m.enrich) := by
    rw [hbase]
    exact List.perm_insertionSort descRel _
  refine ⟨hbase, hperm, fun e => hperm.mem_iff, ?_, fun s => ?_, fun l hl => ?_⟩
  · rw [hbase]
    exact List.sorted_insertionSort descRel _
  · rw [hbase]
    exact sortByScoreDesc_filter_scoreEq _ s
  · rw [matchListing_eq, if_neg (by simp [hl])]

/-- The five-record reference test set of `test_matcher.py`. -/
def sampleListings : List Listing :=
  [{ listing_id := "1", title := "Toyota Avanza G 2020 Manual Putih",
     price := some 150000000, year := some 2020, km := some 30000,
     transmission := some "manual" },
   { listing_id := "2", title := "Toyota Innova 2020 Manual",
     price := some 280000000, year := some 2020, km := some 25000,
     transmission := some "manual" },
   { listing_id := "3", title := "Toyota Avanza Veloz 2018 MT",
     price := some 140000000, year := some 2018, km := some 50000,
     transmission := some "manual" },
   { listing_id := "4", title := "Toyota Avanza 2021 Matic",
     price := some 170000000, year := some 2021, km := some 20000,
     transmission := some "automatic" },
   { listing_id := "5", title := "Toyota Avanza 2019 Manual",
     price := some 130000000, year := some 2019, km := some 45000,
     transmission := some "manual" }]

/-- The non-target-model record of the reference test set. -/
def innovaListing : Listing :=
  { listing_id := "2", title := "Toyota Innova 2020 Manual",
    price := some 280000000, year := some 2020, km := some 25000,
    transmission := some "manual" }

/-- Witness for C1 at a concrete input: the reference test set, with the
rejected Innova record returned unenriched. -/
theorem C1_filter_pipeline_witness :
    defaultMatcher.filter_listings sampleListings =
      sortByScoreDesc
        ((sampleListings.filter defaultMatcher.passesAll).map defaultMatcher.enrich) ∧
    defaultMatcher.matchListing innovaListing = (false, innovaListing) :=
  ⟨(C1_filter_pipeline defaultMatcher sampleListings).1,
   (C1_filter_pipeline defaultMatcher []).2.2.2.2.2 innovaListing (by decide)⟩
